import Mathlib

/-!
Verification of the siem-platform ingest service against its design
specification.  The Go sources of the ingest pipeline (middleware chain,
tenant validator, JWT middleware, ingest handler, mock publisher) are
shallowly embedded as Lean functions below; the Windowed State Store,
whose implementation is not part of the repository sources, is modelled
from the specification text.
-/

namespace SIEM

/-! ## Data model (`internal/models/event.go`) -/

/-- Structure `Source` from `models/event.go`: event source information. -/
structure Source where
  system : String
  integration : String
  host : String
  deriving DecidableEq, Repr

/-- Structure `Actor` from `models/event.go`. -/
structure Actor where
  type : String
  id : String
  name : String
  email : String
  deriving DecidableEq, Repr

/-- Structure `Target` from `models/event.go`. -/
structure Target where
  type : String
  id : String
  name : String
  deriving DecidableEq, Repr

/-- Structure `Event` from `models/event.go`: the canonical security event.
`attributes` (an open key/value bag in Go) is embedded as an association
list of strings; `actor` and `target` are pointers in Go, hence `Option`. -/
structure Event where
  tenantID : String
  eventID : String
  timestamp : String
  source : Source
  category : String
  severity : Int
  actor : Option Actor
  target : Option Target
  action : String
  outcome : String
  attributes : List (String × String)
  rawRef : String
  tags : List String
  deriving DecidableEq, Repr

/-! ## Mock publisher (`internal/publisher/mock.go`)

`MockPublisher.published` is a Go `map[string][]*models.Event`; a missing
key reads as the nil (empty) slice, so the map is embedded as a total
function from topics to lists with default `[]`. -/

/-- The `published` map of a `MockPublisher`. -/
def PubState : Type := String → List Event

/-- Constructor `NewMockPublisher`: the fresh mock has nothing published on any topic. -/
def newMockPublisher : PubState := fun _ => []

/-- Method `MockPublisher.Publish`: appends the event to the slice stored for the
topic and returns `nil` (embedded as `Except.ok ()`). -/
def mockPublish (m : PubState) (topic : String) (event : Event) :
    Except Unit Unit × PubState :=
  (Except.ok (), fun t => if t = topic then m t ++ [event] else m t)

/-- Method `MockPublisher.GetPublished`: reads the slice stored for the topic
(`nil`, i.e. `[]`, when the topic was never published to). -/
def getPublished (m : PubState) (topic : String) : List Event :=
  m topic

/-- Replays a sequence of `Publish(topic, event)` calls on a mock. -/
def publishSeq (m : PubState) : List (String × Event) → PubState
  | [] => m
  | (t, e) :: rest => publishSeq (mockPublish m t e).2 rest

/-! ## HTTP layer embedding

A request is embedded with the fields the pipeline inspects.  Header
lookup in Go (`r.Header.Get`) yields `""` for an absent header, so header
fields are plain strings with `""` meaning absent.  `context.Value`
lookups are embedded as an explicit `Ctx` record of `Option`s.  The body
read (`io.ReadAll` + `json.Unmarshal`) and the JWT parse
(`jwt.Parse` under the configured key) are external-library steps whose
outcome the embedding carries as data on the request. -/

/-- Outcome of `io.ReadAll(r.Body)` followed by `json.Unmarshal`. -/
inductive BodyRead where
  | unreadable
  | invalidJSON
  | event (e : Event)
  deriving DecidableEq, Repr

/-- The `tenant_id` and `sub` entries of `jwt.MapClaims`, after the
`.(string)` type assertions (`none` = absent or not a string). -/
structure Claims where
  tenantID : Option String
  sub : Option String
  deriving DecidableEq, Repr

/-- Outcome of `jwt.Parse` on the bearer token under the configured key:
`invalid` covers a parse error, `!token.Valid`, and claims that are not
`jwt.MapClaims`; all three are rejected identically by the middleware. -/
inductive TokenParse where
  | invalid
  | valid (claims : Claims)
  deriving DecidableEq, Repr

/-- Request-scoped `context.Context` values the pipeline reads or writes. -/
structure Ctx where
  tenantID : Option String
  userID : Option String
  deriving DecidableEq, Repr

/-- An inbound HTTP request as seen by the ingest pipeline. -/
structure Request where
  method : String
  tenantHeader : String
  authHeader : String
  tokenParse : TokenParse
  body : BodyRead
  remoteAddr : String
  ctx : Ctx
  deriving DecidableEq, Repr

/-- A handler takes the request and the mock-publisher state and yields
the HTTP status written plus the resulting publisher state, or `none`
when the Go code would panic (a failed unchecked type assertion). -/
def Handler : Type := Request → PubState → Option (Nat × PubState)

/-! ## Middleware (`middleware/tenant.go`, `part_006`, `RequestLogger`) -/

/-- Middleware `TenantValidator` from `middleware/tenant.go`: rejects a missing
`X-Tenant-ID` header (400), rejects a header whose byte length is below 3
or above 63 (400), and otherwise stores the header value in the request
context as `tenant_id` and calls `next`.  Go `len` counts bytes, embedded
as `String.utf8ByteSize`. -/
def TenantValidator (_jwtPublicKey : String) (next : Handler) : Handler :=
  fun r ps =>
    let tenantID := r.tenantHeader
    if tenantID = "" then some (400, ps)
    else if tenantID.utf8ByteSize < 3 ∨ tenantID.utf8ByteSize > 63 then some (400, ps)
    else next { r with ctx := { r.ctx with tenantID := some tenantID } } ps

/-- Middleware `JWTAuth` from `part_006`: rejects a missing `Authorization` header
(401) or one without the `Bearer ` prefix (401); with an unconfigured
public key it forwards the request unchanged; otherwise it rejects an
invalid token (401), a missing `tenant_id` claim (401), and a claim that
differs from the context `tenant_id` (403); on success it stores the
`sub` claim as `user_id` and calls `next`.  `strings.HasPrefix` is
embedded as character-list prefix; the `r.Context().Value("tenant_id").(string)`
unchecked assertion panics when the context entry is absent, embedded as
`none`. -/
def JWTAuth (publicKey : String) (next : Handler) : Handler :=
  fun r ps =>
    if r.authHeader = "" then some (401, ps)
    else if ¬ ("Bearer ".data.isPrefixOf r.authHeader.data) then some (401, ps)
    else if publicKey = "" then next r ps
    else
      match r.tokenParse with
      | TokenParse.invalid => some (401, ps)
      | TokenParse.valid claims =>
        match claims.tenantID with
        | none => some (401, ps)
        | some jwtTenantID =>
          match r.ctx.tenantID with
          | none => none
          | some headerTenantID =>
            if jwtTenantID ≠ headerTenantID then some (403, ps)
            else
              match claims.sub with
              | some userID =>
                  next { r with ctx := { r.ctx with userID := some userID } } ps
              | none => next r ps

/-- Middleware `RequestLogger` from `part_007`'s sibling file: wraps the handler only
to log method, path and captured status; the request and response it
passes through are unchanged. -/
def RequestLogger (next : Handler) : Handler := fun r ps => next r ps

/-- Function `Chain` from `models/event.go` (middleware file): iterates
`i := len(middleware)-1; i >= 0; i--` doing `handler = middleware[i](handler)`,
i.e. a left fold over the reversed middleware list. -/
def Chain (handler : Handler) (middlewares : List (Handler → Handler)) : Handler :=
  middlewares.reverse.foldl (fun h m => m h) handler

/-! ## Ingest handler (`part_007`, `IngestHandler.IngestEvents`)

`uuid.New().String()`, `time.Now().UTC().Format(...)` and `r.RemoteAddr`
are environment-supplied; the first two enter as parameters `freshID` and
`nowTS`. -/

/-- The tenant-scoped topic `"raw.events." + tenantID` built at
`part_007` line 72. -/
def eventTopic (tenantID : String) : String := "raw.events." ++ tenantID

/-- The enrichment of the parsed event at `part_007` lines 66–69:
`TenantID`, `EventID`, `Timestamp` and `Source.Host` are overwritten. -/
def enrich (e : Event) (tenantID freshID nowTS remoteAddr : String) : Event :=
  { e with
    tenantID := tenantID
    eventID := freshID
    timestamp := nowTS
    source := { e.source with host := remoteAddr } }

/-- Handler `IngestEvents` from `part_007`, with the mock publisher as the
`Publisher`: rejects a non-POST method (405), a missing or empty context
`tenant_id` (401), an unreadable body (400), invalid JSON (400) and a
missing `category` (400); otherwise enriches the event and publishes it
on the tenant topic, answering 202 (the mock's `Publish` never errors,
so the 500 branch of the Go code is unreachable here). -/
def IngestEvents (freshID nowTS : String) : Handler :=
  fun r ps =>
    if r.method ≠ "POST" then some (405, ps)
    else
      match r.ctx.tenantID with
      | none => some (401, ps)
      | some tenantID =>
        if tenantID = "" then some (401, ps)
        else
          match r.body with
          | BodyRead.unreadable => some (400, ps)
          | BodyRead.invalidJSON => some (400, ps)
          | BodyRead.event e =>
            if e.category = "" then some (400, ps)
            else
              let event := enrich e tenantID freshID nowTS r.remoteAddr
              let topic := eventTopic tenantID
              match mockPublish ps topic event with
              | (Except.ok _, ps') => some (202, ps')
              | (Except.error _, _) => some (500, ps)

/-- The middleware chain built in `main` (`part_004` lines 65–70):
logging, then tenant validation, then JWT auth, around the ingest
handler. -/
def ingestPipeline (publicKey freshID nowTS : String) : Handler :=
  Chain (IngestEvents freshID nowTS)
    [RequestLogger, TenantValidator publicKey, JWTAuth publicKey]

/-! ## Windowed State Store

Modelled from the spec: the Windowed State Store implementation is not
among the repository sources (only an abstract interface sketch exists in
`docs/planning/sub_agents.md`), so `increment` and `get` are defined from
§4.3 of the specification: `increment(tenant_id, key, window_seconds)`
records one observation at the current time, discards observations no
longer in the window, and returns the count of observations remaining in
the window including the new one; the window is sliding, an observation
contributing "until exactly `window_seconds` after it was recorded, then
silently stops counting" (§4.3 pruning policy, §8, glossary), i.e. it
counts at query time `q` exactly when `q < t + window_seconds`.
Timestamps are naturals (seconds). -/

/-- State of the Windowed State Store: per `(tenant_id, key)` the ordered
sequence of observation timestamps. -/
structure WindowedStore where
  obs : String → String → List Nat

/-- Modelled from the spec: observations still inside a sliding window of
`w` seconds at time `now` — the observation at `t` counts while
`now < t + w`. -/
def pruneWindow (w now : Nat) (l : List Nat) : List Nat :=
  l.filter (fun t => now < t + w)

/-- Modelled from the spec: `get(tenant_id, key, window_seconds)` — the
count of observations remaining in the window, without recording one. -/
def WindowedStore.get (s : WindowedStore) (tenantID key : String)
    (w now : Nat) : Nat :=
  (pruneWindow w now (s.obs tenantID key)).length

/-- Modelled from the spec: `increment(tenant_id, key, window_seconds)` —
records one observation at the current time, discards observations
outside the window, and returns the count remaining including the new
one, together with the updated store. -/
def WindowedStore.increment (s : WindowedStore) (tenantID key : String)
    (w now : Nat) : Nat × WindowedStore :=
  let kept := pruneWindow w now (s.obs tenantID key ++ [now])
  (kept.length,
   { obs := fun a k => if a = tenantID ∧ k = key then kept else s.obs a k })

/-! ## Concrete fixtures used by witnesses and counterexamples -/

/-- A caller-supplied event body, including spoofed `tenant_id` and
`event_id` fields that the handler must overwrite. -/
def sampleEvent : Event :=
  { tenantID := "spoofed-tenant"
    eventID := "spoofed-id"
    timestamp := "1999-01-01T00:00:00Z"
    source := { system := "test", integration := "", host := "" }
    category := "auth"
    severity := 5
    actor := none
    target := none
    action := ""
    outcome := ""
    attributes := []
    rawRef := ""
    tags := [] }

/-- The empty request context, before any middleware has run. -/
def emptyCtx : Ctx := { tenantID := none, userID := none }

/-- A trivial inner handler answering 200 and touching nothing. -/
def okHandler : Handler := fun _ ps => some (200, ps)

/-- A well-formed POST carrying tenant header `acme-corp` and a bearer
token whose `tenant_id` claim says `other-corp`: the mismatch case. -/
def mismatchReq : Request :=
  { method := "POST"
    tenantHeader := "acme-corp"
    authHeader := "Bearer tok"
    tokenParse := TokenParse.valid { tenantID := some "other-corp", sub := none }
    body := BodyRead.event sampleEvent
    remoteAddr := "10.0.0.1:4242"
    ctx := emptyCtx }

/-- A well-formed POST whose token claim agrees with the header. -/
def matchedReq : Request :=
  { mismatchReq with
    tokenParse := TokenParse.valid { tenantID := some "acme-corp", sub := some "u1" } }

/-- A request whose JSON body has category `bogus`, outside the
documented enumeration `auth|endpoint|network|cloud|k8s|storage|ops`. -/
def bogusCategoryReq : Request :=
  { matchedReq with body := BodyRead.event { sampleEvent with category := "bogus" } }

/-- A request whose JSON body is missing the `category` field. -/
def noCategoryReq : Request :=
  { matchedReq with body := BodyRead.event { sampleEvent with category := "" } }

/-- A request whose `X-Tenant-ID` header is too short (`"ab"`). -/
def shortTenantReq : Request :=
  { matchedReq with tenantHeader := "ab" }

/-! ## Theorems -/

/-- C7: the tenant validator fails with a client error (400) exactly when
the `X-Tenant-ID` header is absent (read as `""`) or its byte length is
outside `[3, 63]`; for every header value of length 3 through 63 it calls
the next handler on the request whose context tenant scope is exactly the
header value, leaving everything else unchanged. -/
theorem C7_tenant_validator_length_gate (k : String) (next : Handler)
    (r : Request) (ps : PubState) :
    ((r.tenantHeader.utf8ByteSize < 3 ∨ r.tenantHeader.utf8ByteSize > 63) →
        TenantValidator k next r ps = some (400, ps)) ∧
    (3 ≤ r.tenantHeader.utf8ByteSize → r.tenantHeader.utf8ByteSize ≤ 63 →
        TenantValidator k next r ps
          = next { r with ctx := { r.ctx with tenantID := some r.tenantHeader } } ps) := by
  constructor
  · intro h
    by_cases hne : r.tenantHeader = ""
    · simp [TenantValidator, hne]
    · simp only [TenantValidator]
      rw [if_neg hne, if_pos h]
  · intro h3 h63
    have hne : r.tenantHeader ≠ "" := by
      intro he
      rw [he] at h3
      exact absurd h3 (by decide)
    have hcond : ¬ (r.tenantHeader.utf8ByteSize < 3 ∨ r.tenantHeader.utf8ByteSize > 63) := by
      omega
    simp only [TenantValidator]
    rw [if_neg hne, if_neg hcond]

/-- Witness for C7: the too-short header `"ab"` is rejected with 400, and
the in-range header `"acme-corp"` is passed through into the context. -/
theorem C7_witness :
    TenantValidator "" okHandler shortTenantReq newMockPublisher
        = some (400, newMockPublisher) ∧
    TenantValidator "" okHandler matchedReq newMockPublisher
        = okHandler { matchedReq with
            ctx := { matchedReq.ctx with tenantID := some matchedReq.tenantHeader } }
            newMockPublisher :=
  ⟨(C7_tenant_validator_length_gate "" okHandler shortTenantReq newMockPublisher).1
      (Or.inl (by decide)),
   (C7_tenant_validator_length_gate "" okHandler matchedReq newMockPublisher).2
      (by decide) (by decide)⟩

/-- C9: `Chain` makes the first-listed middleware outermost —
`Chain h (m :: ms) = m (Chain h ms)`, hence
`Chain h [m1, m2, m3] = m1 (m2 (m3 h))` — and the ingest service's chain
is the request logger around the tenant validator around JWT auth around
the handler, so the logger runs first, then tenant validation, then JWT
authentication, before the wrapped handler. -/
theorem C9_chain_order :
    (∀ (h : Handler) (m : Handler → Handler) (ms : List (Handler → Handler)),
        Chain h (m :: ms) = m (Chain h ms)) ∧
    (∀ (h : Handler) (m1 m2 m3 : Handler → Handler),
        Chain h [m1, m2, m3] = m1 (m2 (m3 h))) ∧
    (∀ k fid ts, ingestPipeline k fid ts
        = RequestLogger (TenantValidator k (JWTAuth k (IngestEvents fid ts)))) := by
  refine ⟨?_, ?_, ?_⟩
  · intro h m ms
    unfold Chain
    rw [List.reverse_cons, List.foldl_append]
    rfl
  · intro h m1 m2 m3
    rfl
  · intro k fid ts
    rfl

/-- Order of events a mock accumulates: replaying a call sequence on a
publisher yields, per topic, what was already there followed by that
topic's calls in order. -/
theorem getPublished_publishSeq (m : PubState) (calls : List (String × Event))
    (topic : String) :
    getPublished (publishSeq m calls) topic
      = getPublished m topic
          ++ (calls.filter (fun p => decide (p.1 = topic))).map Prod.snd := by
  induction calls generalizing m with
  | nil => simp [publishSeq]
  | cons p rest ih =>
    obtain ⟨t, e⟩ := p
    show getPublished (publishSeq (mockPublish m t e).2 rest) topic = _
    rw [ih]
    by_cases ht : t = topic
    · subst ht
      simp [mockPublish, getPublished, List.filter_cons]
    · have ht' : topic ≠ t := fun hh => ht hh.symm
      simp [mockPublish, getPublished, List.filter_cons, ht, ht']

/-- C10: `MockPublisher.Publish` always returns `nil`, appends the event
to exactly the given topic's stored sequence, and leaves every other
topic's sequence unchanged; `GetPublished` returns a topic's events in
publish order (for any call sequence replayed on a fresh mock) and the
empty sequence for a topic never published to. -/
theorem C10_mock_publisher (m : PubState) (topic other : String) (e : Event)
    (calls : List (String × Event)) :
    (mockPublish m topic e).1 = Except.ok () ∧
    getPublished (mockPublish m topic e).2 topic = getPublished m topic ++ [e] ∧
    (other ≠ topic → getPublished (mockPublish m topic e).2 other = getPublished m other) ∧
    getPublished (publishSeq newMockPublisher calls) topic
      = (calls.filter (fun p => decide (p.1 = topic))).map Prod.snd ∧
    getPublished newMockPublisher topic = [] := by
  refine ⟨rfl, ?_, ?_, ?_, rfl⟩
  · simp [mockPublish, getPublished]
  · intro hne
    simp [mockPublish, getPublished, hne]
  · rw [getPublished_publishSeq]
    rfl

/-- Witness for C10: publishing on topic `raw.events.t1` leaves topic
`raw.events.t2` empty. -/
theorem C10_witness :
    getPublished (mockPublish newMockPublisher "raw.events.t1" sampleEvent).2
        "raw.events.t2"
      = getPublished newMockPublisher "raw.events.t2" :=
  (C10_mock_publisher newMockPublisher "raw.events.t1" "raw.events.t2"
      sampleEvent []).2.2.1 (by decide)

/-- A query strictly later than an earlier pruning only removes further
observations: pruning at `now` then at `q ≥ now` is pruning at `q`. -/
theorem pruneWindow_pruneWindow (w now q : Nat) (hq : now ≤ q) (l : List Nat) :
    pruneWindow w q (pruneWindow w now l) = pruneWindow w q l := by
  induction l with
  | nil => rfl
  | cons x xs ih =>
    by_cases hx : q < x + w
    · have hx2 : now < x + w := lt_of_le_of_lt hq hx
      simp [pruneWindow, List.filter_cons, hx, hx2] at ih ⊢
      exact ih
    · by_cases hx2 : now < x + w
      · simp [pruneWindow, List.filter_cons, hx, hx2] at ih ⊢
        exact ih
      · simp [pruneWindow, List.filter_cons, hx, hx2] at ih ⊢
        exact ih

/-- C4: for a positive window `W`, `increment(tenant, key, W)` at time
`now` returns the windowed count including the new observation
(`get` before the call, plus one); and for every query time `q ≥ now`,
the windowed count after the increment exceeds the count the old store
would report at `q` by exactly one while `q < now + W` and by nothing
once `q ≥ now + W` — the new observation contributes on `[now, now+W)`
and never at or after `now + W`. -/
theorem C4_windowed_store_sliding (s : WindowedStore) (a k : String)
    (w now q : Nat) :
    (0 < w → (s.increment a k w now).1 = s.get a k w now + 1) ∧
    (now ≤ q →
        (s.increment a k w now).2.get a k w q
          = s.get a k w q + (if q < now + w then 1 else 0)) := by
  constructor
  · intro hw
    have hself : now < now + w := by omega
    simp [WindowedStore.increment, WindowedStore.get, pruneWindow,
      List.filter_append, List.filter_cons, hself]
  · intro hq
    have hobs : (s.increment a k w now).2.obs a k
        = pruneWindow w now (s.obs a k ++ [now]) := by
      simp [WindowedStore.increment]
    show (pruneWindow w q ((s.increment a k w now).2.obs a k)).length = _
    rw [hobs, pruneWindow_pruneWindow w now q hq]
    by_cases hqw : q < now + w
    · simp [WindowedStore.get, pruneWindow, List.filter_append,
        List.filter_cons, hqw]
    · simp [WindowedStore.get, pruneWindow, List.filter_append,
        List.filter_cons, hqw]

/-- Witness for C4 with `W = 5`, an increment at `now = 10`, queried at
`q = 12` (inside the window) on the empty store. -/
theorem C4_witness :
    (WindowedStore.increment { obs := fun _ _ => [] } "acme-corp" "user123" 5 10).1
        = WindowedStore.get { obs := fun _ _ => [] } "acme-corp" "user123" 5 10 + 1 ∧
    (WindowedStore.increment { obs := fun _ _ => [] } "acme-corp" "user123" 5 10).2.get
          "acme-corp" "user123" 5 12
        = WindowedStore.get { obs := fun _ _ => [] } "acme-corp" "user123" 5 12
            + (if 12 < 10 + 5 then 1 else 0) :=
  ⟨(C4_windowed_store_sliding { obs := fun _ _ => [] } "acme-corp" "user123"
      5 10 12).1 (by decide),
   (C4_windowed_store_sliding { obs := fun _ _ => [] } "acme-corp" "user123"
      5 10 12).2 (by decide)⟩

/-- A handler touches the publisher only when it answers 202. -/
def OnlyPublishOn202 (h : Handler) : Prop :=
  ∀ r ps st ps', h r ps = some (st, ps') → st ≠ 202 → ps' = ps

theorem ingestEvents_frame (fid ts : String) :
    OnlyPublishOn202 (IngestEvents fid ts) := by
  intro r ps st ps' h hst
  simp only [IngestEvents, mockPublish] at h
  repeat' split at h
  all_goals simp_all

theorem jwtAuth_frame (k : String) (next : Handler)
    (hn : OnlyPublishOn202 next) : OnlyPublishOn202 (JWTAuth k next) := by
  intro r ps st ps' h hst
  simp only [JWTAuth] at h
  repeat' split at h
  all_goals first
    | exact hn _ _ _ _ h hst
    | simp_all

theorem tenantValidator_frame (k : String) (next : Handler)
    (hn : OnlyPublishOn202 next) : OnlyPublishOn202 (TenantValidator k next) := by
  intro r ps st ps' h hst
  simp only [TenantValidator] at h
  repeat' split at h
  all_goals first
    | exact hn _ _ _ _ h hst
    | simp_all

/-- C2: every rejected ingest request leaves the publisher untouched —
whenever the full pipeline (logger, tenant validator, JWT auth, ingest
handler over the mock publisher) answers any status other than 202
(missing/malformed tenant header, missing/invalid authorization, tenant
claim/header disagreement, wrong method, unreadable or invalid JSON,
missing category), the resulting publisher state is exactly the input
state: no `Publish` call happened. -/
theorem C2_reject_no_publish (k fid ts : String) (r : Request) (ps : PubState)
    (st : Nat) (ps' : PubState)
    (h : ingestPipeline k fid ts r ps = some (st, ps'))
    (hst : st ≠ 202) : ps' = ps :=
  tenantValidator_frame k (JWTAuth k (IngestEvents fid ts))
    (jwtAuth_frame k (IngestEvents fid ts) (ingestEvents_frame fid ts))
    r ps st ps' h hst

/-- Witness for C2: the missing-category request is rejected with 400 and
the fresh mock is unchanged. -/
theorem C2_witness : (newMockPublisher : PubState) = newMockPublisher :=
  C2_reject_no_publish "" "fid-1" "2026-01-01T00:00:00Z" noCategoryReq
    newMockPublisher 400 newMockPublisher rfl (by decide)

/-- Fixture `matchedReq` as the ingest handler sees it after the middleware set
its context tenant scope. -/
def ctxReq : Request :=
  { matchedReq with ctx := { tenantID := some "acme-corp", userID := none } }

/-- C1 counterexample: with an unconfigured verification key
(`publicKey = ""`), the request whose bearer token carries
`tenant_id = "other-corp"` while the `X-Tenant-ID` header says
`acme-corp` is NOT rejected: the pipeline answers 202 and the event is
published on `acme-corp`'s topic, so the inner handler did run — the
claim's mismatch rejection does not happen in dev mode. -/
theorem C1_counterexample :
    (ingestPipeline "" "fid-1" "2026-01-01T00:00:00Z" mismatchReq
        newMockPublisher).map
        (fun p => (p.1, getPublished p.2 (eventTopic "acme-corp")))
      = some (202,
          [enrich sampleEvent "acme-corp" "fid-1" "2026-01-01T00:00:00Z"
            mismatchReq.remoteAddr]) := by
  rfl

/-- C1 (amended): with an unconfigured verification key the JWT
middleware checks only that the `Authorization` header is present and
`Bearer `-prefixed, then forwards the request unchanged without parsing
the token: claim/header equality is never examined in dev mode, even
when the token carries a `tenant_id` claim. -/
theorem C1_amended_devmode_passthrough (next : Handler) (r : Request)
    (ps : PubState) (hne : r.authHeader ≠ "")
    (hpre : "Bearer ".data.isPrefixOf r.authHeader.data = true) :
    JWTAuth "" next r ps = next r ps := by
  simp only [JWTAuth]
  rw [if_neg hne, if_neg (by simp [hpre])]
  simp

/-- Witness for the amended C1 at the mismatched-claim request. -/
theorem C1_witness :
    JWTAuth "" okHandler mismatchReq newMockPublisher
      = okHandler mismatchReq newMockPublisher :=
  C1_amended_devmode_passthrough okHandler mismatchReq newMockPublisher
    (by decide) (by decide)

/-- C3 counterexample: a request whose `category` is the non-empty string
`"bogus"` — outside the enumeration `auth|endpoint|network|cloud|k8s|storage|ops`
— is accepted (202) and published, not rejected: the handler never checks
the enumeration. -/
theorem C3_counterexample :
    (ingestPipeline "" "fid-3" "2026-01-01T00:00:00Z" bogusCategoryReq
        newMockPublisher).map
        (fun p => (p.1, getPublished p.2 (eventTopic "acme-corp")))
      = some (202,
          [enrich { sampleEvent with category := "bogus" } "acme-corp" "fid-3"
            "2026-01-01T00:00:00Z" bogusCategoryReq.remoteAddr]) := by
  rfl

/-- C3 (amended): the `category` field is validated for presence only —
an otherwise well-formed request with an empty `category` is rejected
with 400, and one with ANY non-empty `category` (inside the enumeration
or not) is accepted with 202 and published. -/
theorem C3_amended_category_presence_only (fid ts : String) (r : Request)
    (ps : PubState) (e : Event) (t : String)
    (hm : r.method = "POST") (hctx : r.ctx.tenantID = some t) (ht : t ≠ "")
    (hb : r.body = BodyRead.event e) :
    (e.category = "" → IngestEvents fid ts r ps = some (400, ps)) ∧
    (e.category ≠ "" →
        IngestEvents fid ts r ps
          = some (202, (mockPublish ps (eventTopic t)
              (enrich e t fid ts r.remoteAddr)).2)) := by
  constructor <;> intro hc <;>
    simp [IngestEvents, hm, hctx, ht, hb, hc, mockPublish]

/-- Witness for the amended C3: category `"auth"` is accepted and
published on `acme-corp`'s topic. -/
theorem C3_witness :
    IngestEvents "fid-3" "2026-01-01T00:00:00Z" ctxReq newMockPublisher
      = some (202, (mockPublish newMockPublisher (eventTopic "acme-corp")
          (enrich sampleEvent "acme-corp" "fid-3" "2026-01-01T00:00:00Z"
            ctxReq.remoteAddr)).2) :=
  (C3_amended_category_presence_only "fid-3" "2026-01-01T00:00:00Z" ctxReq
      newMockPublisher sampleEvent "acme-corp" rfl rfl (by decide) rfl).2
    (by decide)

/-- C5: with a configured verification key the three failure modes carry
distinct statuses — a missing `X-Tenant-ID` header is a 400 client error
(before JWT auth runs); a missing `Authorization` header, or an invalid
token, is a 401; and a well-formed valid token whose `tenant_id` claim
differs from the header is a 403 permission failure. -/
theorem C5_distinct_error_statuses (k fid ts : String) (r : Request)
    (ps : PubState) (cl : Claims) (c : String) :
    (r.tenantHeader = "" → ingestPipeline k fid ts r ps = some (400, ps)) ∧
    (3 ≤ r.tenantHeader.utf8ByteSize → r.tenantHeader.utf8ByteSize ≤ 63 →
      r.authHeader = "" → ingestPipeline k fid ts r ps = some (401, ps)) ∧
    (3 ≤ r.tenantHeader.utf8ByteSize → r.tenantHeader.utf8ByteSize ≤ 63 →
      r.authHeader ≠ "" → "Bearer ".data.isPrefixOf r.authHeader.data = true →
      k ≠ "" → r.tokenParse = TokenParse.invalid →
      ingestPipeline k fid ts r ps = some (401, ps)) ∧
    (3 ≤ r.tenantHeader.utf8ByteSize → r.tenantHeader.utf8ByteSize ≤ 63 →
      r.authHeader ≠ "" → "Bearer ".data.isPrefixOf r.authHeader.data = true →
      k ≠ "" → r.tokenParse = TokenParse.valid cl → cl.tenantID = some c →
      c ≠ r.tenantHeader →
      ingestPipeline k fid ts r ps = some (403, ps)) := by
  have hpipe : ingestPipeline k fid ts
      = RequestLogger (TenantValidator k (JWTAuth k (IngestEvents fid ts))) := rfl
  refine ⟨?_, ?_, ?_, ?_⟩
  · intro h
    rw [hpipe]
    simp [RequestLogger, TenantValidator, h]
  · intro h3 h63 ha
    rw [hpipe]
    have hne : r.tenantHeader ≠ "" := by
      intro he; rw [he] at h3; exact absurd h3 (by decide)
    simp [RequestLogger, TenantValidator, hne, JWTAuth, ha]
    omega
  · intro h3 h63 ha hpre hk htok
    rw [hpipe]
    have hne : r.tenantHeader ≠ "" := by
      intro he; rw [he] at h3; exact absurd h3 (by decide)
    simp [RequestLogger, TenantValidator, hne, JWTAuth, ha, hpre, hk, htok]
    omega
  · intro h3 h63 ha hpre hk htok hcl hcne
    rw [hpipe]
    have hne : r.tenantHeader ≠ "" := by
      intro he; rw [he] at h3; exact absurd h3 (by decide)
    simp [RequestLogger, TenantValidator, hne, JWTAuth, ha, hpre, hk, htok,
      hcl, hcne]
    omega

/-- Witness for C5: with key `"rsa-key"`, the mismatched-claim request is
answered 403 with nothing published. -/
theorem C5_witness :
    ingestPipeline "rsa-key" "fid-5" "2026-01-01T00:00:00Z" mismatchReq
        newMockPublisher = some (403, newMockPublisher) :=
  (C5_distinct_error_statuses "rsa-key" "fid-5" "2026-01-01T00:00:00Z"
      mismatchReq newMockPublisher
      { tenantID := some "other-corp", sub := none } "other-corp").2.2.2
    (by decide) (by decide) (by decide) (by decide) (by decide) rfl rfl
    (by decide)

/-- C6: every accepted ingest request publishes the enriched event whose
`event_id` is the ingress-generated fresh id and whose `tenant_id` is the
authenticated context tenant — whatever `event_id` or `tenant_id` the
caller put in the JSON body is overwritten and never appears. -/
theorem C6_ingress_assigned_identities (fid ts : String) (r : Request)
    (ps : PubState) (e : Event) (t : String)
    (hm : r.method = "POST") (hctx : r.ctx.tenantID = some t) (ht : t ≠ "")
    (hb : r.body = BodyRead.event e) (hc : e.category ≠ "") :
    (IngestEvents fid ts r ps).map (fun p => getPublished p.2 (eventTopic t))
        = some (getPublished ps (eventTopic t)
            ++ [enrich e t fid ts r.remoteAddr]) ∧
    (enrich e t fid ts r.remoteAddr).eventID = fid ∧
    (enrich e t fid ts r.remoteAddr).tenantID = t := by
  refine ⟨?_, rfl, rfl⟩
  simp [IngestEvents, hm, hctx, ht, hb, hc, mockPublish, getPublished]

/-- Witness for C6: the accepted request's spoofed `event_id`/`tenant_id`
are replaced by `fid-6` and `acme-corp`. -/
theorem C6_witness :
    (enrich sampleEvent "acme-corp" "fid-6" "2026-01-01T00:00:00Z"
        ctxReq.remoteAddr).eventID = "fid-6" ∧
    (enrich sampleEvent "acme-corp" "fid-6" "2026-01-01T00:00:00Z"
        ctxReq.remoteAddr).tenantID = "acme-corp" :=
  ⟨(C6_ingress_assigned_identities "fid-6" "2026-01-01T00:00:00Z" ctxReq
      newMockPublisher sampleEvent "acme-corp" rfl rfl (by decide) rfl
      (by decide)).2.1,
   (C6_ingress_assigned_identities "fid-6" "2026-01-01T00:00:00Z" ctxReq
      newMockPublisher sampleEvent "acme-corp" rfl rfl (by decide) rfl
      (by decide)).2.2⟩

/-- C8: the publish topic is `"raw.events."` concatenated with the tenant
scope, that derivation is injective (distinct tenants never share a
topic), and an accepted request publishes to no topic other than its own
tenant's. -/
theorem C8_tenant_scoped_topic (fid ts : String) (r : Request)
    (ps : PubState) (e : Event) (t t1 t2 topic : String) :
    eventTopic t = "raw.events." ++ t ∧
    (eventTopic t1 = eventTopic t2 → t1 = t2) ∧
    (r.method = "POST" → r.ctx.tenantID = some t → t ≠ "" →
      r.body = BodyRead.event e → e.category ≠ "" → topic ≠ eventTopic t →
      (IngestEvents fid ts r ps).map (fun p => getPublished p.2 topic)
        = some (getPublished ps topic)) := by
  refine ⟨rfl, ?_, ?_⟩
  · intro h
    have hd : ("raw.events." ++ t1).data = ("raw.events." ++ t2).data :=
      congrArg String.data h
    rw [String.data_append, String.data_append] at hd
    exact String.ext (List.append_cancel_left hd)
  · intro hm hctx ht hb hc htopic
    simp [IngestEvents, hm, hctx, ht, hb, hc, mockPublish, getPublished,
      htopic]

/-- Witness for C8: `acme-corp`'s accepted event lands nowhere on
`other-corp`'s topic, and equal topics force equal tenants. -/
theorem C8_witness :
    ("acme-corp" : String) = "acme-corp" ∧
    (IngestEvents "fid-8" "2026-01-01T00:00:00Z" ctxReq
        newMockPublisher).map
        (fun p => getPublished p.2 (eventTopic "other-corp"))
      = some (getPublished newMockPublisher (eventTopic "other-corp")) :=
  ⟨(C8_tenant_scoped_topic "fid-8" "2026-01-01T00:00:00Z" ctxReq
      newMockPublisher sampleEvent "acme-corp" "acme-corp" "acme-corp"
      (eventTopic "other-corp")).2.1 rfl,
   (C8_tenant_scoped_topic "fid-8" "2026-01-01T00:00:00Z" ctxReq
      newMockPublisher sampleEvent "acme-corp" "acme-corp" "acme-corp"
      (eventTopic "other-corp")).2.2 rfl rfl (by decide) rfl (by decide)
      (by decide)⟩

end SIEM
